import Mathlib

/-!
Verification of the command dispatch and side-effect orchestration loop of the
ai-pplx-slack-bot repository.  The repository ships several Go variants of the
bot; the embedding below models, faithfully to the Go sources:

- the first main.go variant: handleMessage, PerplexityAPI (substitute-string
  extraction), getRandomHyperlink (delete by url), and its dispatch goroutine
  which applies no bot-origin filter;
- the part_000 variant: handleEventAPI (bot filter), handleUserMessage
  (command dispatch with process-global dedup state), PerplexityAPI (typed
  error extraction), getRandomHyperlink (delete by id, no-rows error);
- the second main.go variant: the event loop with a per-user lastMessage map
  that calls the completion API before consulting the map.

Go strings are modelled as lists of characters; the SQLite hyperlinks table as
a list of (id, url) rows plus the autoincrement counter; ORDER BY RANDOM() as
an arbitrary selection index; the HTTP completion and feed clients as oracle
functions supplied per handling step.  Handlers return the list of outbound
(channel, text) messages, the new state, and the list of queries sent to the
completion client.
-/

namespace PplxBot

/-- Go strings, modelled as lists of characters. -/
abbrev Str := List Char

/-- The character list of a Lean string literal. -/
def chars (s : String) : Str := s.data

/-- Go strings.HasPrefix. -/
def goStartsWith : Str → Str → Bool
  | _, [] => true
  | [], _ => false
  | c :: cs, p :: ps => c = p && goStartsWith cs ps

/-- Go strings.TrimPrefix: drops the second argument from the front of the
first when it is a prefix, otherwise returns the string unchanged. -/
def goTrimPre (s p : Str) : Str :=
  if goStartsWith s p then s.drop p.length else s

/-- Go strings.TrimSpace: strips leading and trailing whitespace. -/
def goTrimSpace (s : Str) : Str :=
  ((s.dropWhile Char.isWhitespace).reverse.dropWhile Char.isWhitespace).reverse

/-- Go strings.Join with separator newline. -/
def joinNL : List Str → Str
  | [] => []
  | [u] => u
  | u :: us => u ++ chars ("\n") ++ joinNL us

/-- An inbound Slack message event: channel id, sender id, raw text, and the
BotID field (empty for human senders, non-empty for bot-origin messages). -/
structure MessageEvent where
  channel : Str
  user : Str
  text : Str
  botID : Str

/-- The SQLite hyperlinks table: rows of (autoincrement id, url) plus the next
id the autoincrement counter will assign. -/
structure StoreState where
  rows : List (Nat × Str)
  nextId : Nat

/-- saveHyperlink: INSERT INTO hyperlinks (url) VALUES (?).  Inserts
unconditionally, no dedup and no validation; the autoincrement assigns the
next id. -/
def saveHyperlink (s : StoreState) (url : Str) : StoreState :=
  { rows := s.rows ++ [(s.nextId, url)], nextId := s.nextId + 1 }

/-- listHyperlinks / getAllHyperlinks: SELECT url FROM hyperlinks. -/
def listHyperlinks (s : StoreState) : List Str :=
  s.rows.map Prod.snd

/-- The row selected by SELECT ... ORDER BY RANDOM() LIMIT 1, with the random
choice supplied as an arbitrary selection index (none on an empty table). -/
def pickRow (s : StoreState) (sel : Nat) : Option (Nat × Str) :=
  s.rows.get? (sel % s.rows.length)

/-- part_000 getRandomHyperlink: SELECT id, url ... ORDER BY RANDOM() LIMIT 1
followed by DELETE FROM hyperlinks WHERE id = ?.  An empty table makes Scan
return sql.ErrNoRows, which this variant propagates as an error. -/
def getRandomHyperlink (s : StoreState) (sel : Nat) : Except Str Str × StoreState :=
  match pickRow s sel with
  | none => (Except.error (chars ("sql: no rows in result set")), s)
  | some (i, u) =>
      (Except.ok u, { rows := s.rows.filter (fun r => r.1 != i), nextId := s.nextId })

/-- First main.go variant of getRandomHyperlink: SELECT url ... ORDER BY
RANDOM() LIMIT 1 followed by DELETE FROM hyperlinks WHERE url = ?; on
sql.ErrNoRows it returns the empty string with no error. -/
def getRandomHyperlinkV1 (s : StoreState) (sel : Nat) : Str × StoreState :=
  match pickRow s sel with
  | none => (chars (""), s)
  | some (_, u) =>
      (u, { rows := s.rows.filter (fun r => r.2 != u), nextId := s.nextId })

/-- The part_000 process-global state: lastUserInput and lastBotResponse
(both empty strings at process start) plus the hyperlinks table. -/
structure BotState where
  lastUserInput : Str
  lastBotResponse : Str
  store : StoreState

/-- The observable outcome of one part_000 handling step: outbound
(channel, text) messages, the new global state, and the queries sent to the
Perplexity completion client. -/
structure HandleResult where
  outbound : List (Str × Str)
  state : BotState
  apiCalls : List Str

/-- part_000 handleUserMessage.  The completion client and the summarize
pipeline (gofeed fetch plus formatting) are oracle functions; the SQLite
insert is modelled as always succeeding, so the save-error reply branch of the
source is unreachable here.  Note the source assigns lastUserInput before
calling PerplexityAPI, and keeps a single process-global dedup pair. -/
def handleUserMessage (api feed : Str → Except Str Str) (sel : Nat)
    (st : BotState) (ev : MessageEvent) : HandleResult :=
  let text := goTrimSpace ev.text
  if goStartsWith text (chars ("!save ")) then
    let url := goTrimPre text (chars ("!save "))
    { outbound := [(ev.channel, chars ("Hyperlink saved successfully!"))],
      state := { st with store := saveHyperlink st.store url }, apiCalls := [] }
  else if text = chars ("!list") then
    { outbound := [(ev.channel,
        chars ("Saved hyperlinks:\n") ++ joinNL (listHyperlinks st.store))],
      state := st, apiCalls := [] }
  else if text = chars ("!random") then
    match getRandomHyperlink st.store sel with
    | (Except.error e, s) =>
        { outbound := [(ev.channel, chars ("Error getting random hyperlink: ") ++ e)],
          state := { st with store := s }, apiCalls := [] }
    | (Except.ok u, s) =>
        { outbound := [(ev.channel, chars ("Random hyperlink: ") ++ u)],
          state := { st with store := s }, apiCalls := [] }
  else if text = chars ("!summarize") then
    match getRandomHyperlink st.store sel with
    | (Except.error e, s) =>
        { outbound := [(ev.channel, chars ("Error getting random hyperlink: ") ++ e)],
          state := { st with store := s }, apiCalls := [] }
    | (Except.ok u, s) =>
        match feed u with
        | Except.error e =>
            { outbound := [(ev.channel, chars ("Error summarizing article: ") ++ e)],
              state := { st with store := s }, apiCalls := [] }
        | Except.ok sm =>
            { outbound := [(ev.channel, chars ("Summary of ") ++ u ++ chars (":\n") ++ sm)],
              state := { st with store := s }, apiCalls := [] }
  else
    if text ≠ st.lastUserInput then
      match api text with
      | Except.error e =>
          { outbound := [(ev.channel, chars ("Error: ") ++ e)],
            state := { st with lastUserInput := text }, apiCalls := [text] }
      | Except.ok r =>
          { outbound := [(ev.channel, r)],
            state := { st with lastUserInput := text, lastBotResponse := r },
            apiCalls := [text] }
    else
      { outbound := [(ev.channel, st.lastBotResponse)], state := st, apiCalls := [] }

/-- part_000 handleEventAPI: message events with a non-empty BotID are
discarded before handleUserMessage runs. -/
def handleEventAPI (api feed : Str → Except Str Str) (sel : Nat)
    (st : BotState) (ev : MessageEvent) : HandleResult :=
  if ev.botID = chars ("") then handleUserMessage api feed sel st ev
  else { outbound := [], state := st, apiCalls := [] }

/-- The observable outcome of one first-variant handling step: outbound
(channel, text) messages, the new store, and the queries sent to the
completion client. -/
structure V1Result where
  outbound : List (Str × Str)
  store : StoreState
  apiCalls : List Str

/-- First main.go variant handleMessage.  Its PerplexityAPI never fails (it
folds every failure into a returned string), so the completion client oracle
is a total function here.  Unmatched text falls through every branch and
produces no outbound message.  The SQLite insert is modelled as always
succeeding, so the save-error reply branch of the source is unreachable. -/
def handleMessage (api2 : Str → Str) (feed : Str → Except Str Str) (sel : Nat)
    (s : StoreState) (ev : MessageEvent) : V1Result :=
  let text := goTrimSpace ev.text
  if goStartsWith text (chars ("!perplexity")) then
    let query := goTrimPre text (chars ("!perplexity"))
    { outbound := [(ev.channel, api2 query)], store := s, apiCalls := [query] }
  else if goStartsWith text (chars ("!savelink")) then
    let url := goTrimPre text (chars ("!savelink"))
    { outbound := [(ev.channel, chars ("Hyperlink saved successfully"))],
      store := saveHyperlink s url, apiCalls := [] }
  else if text = chars ("!getlink") then
    match getRandomHyperlinkV1 s sel with
    | (u, s2) =>
        if u = chars ("") then
          { outbound := [(ev.channel, chars ("No hyperlinks available"))],
            store := s2, apiCalls := [] }
        else
          { outbound := [(ev.channel, chars ("Random hyperlink: ") ++ u)],
            store := s2, apiCalls := [] }
  else if text = chars ("!listlinks") then
    if listHyperlinks s = [] then
      { outbound := [(ev.channel, chars ("No hyperlinks saved"))],
        store := s, apiCalls := [] }
    else
      { outbound := [(ev.channel,
          chars ("Saved hyperlinks:\n") ++ joinNL (listHyperlinks s))],
        store := s, apiCalls := [] }
  else if text = chars ("!summarize") then
    match getRandomHyperlinkV1 s sel with
    | (u, s2) =>
        if u = chars ("") then
          { outbound := [(ev.channel, chars ("No hyperlinks available"))],
            store := s2, apiCalls := [] }
        else
          match feed u with
          | Except.error e =>
              { outbound := [(ev.channel, chars ("Error fetching article: ") ++ e)],
                store := s2, apiCalls := [] }
          | Except.ok article =>
              let q := chars ("Summarize this article: ") ++ article
              { outbound := [(ev.channel,
                  chars ("Summary of article from ") ++ u ++ chars (":\n\n") ++ api2 q)],
                store := s2, apiCalls := [q] }
  else
    { outbound := [], store := s, apiCalls := [] }

/-- First main.go variant dispatch goroutine: every message event is passed to
handleMessage, with no check of the BotID bot-origin flag. -/
def dispatchV1 (api2 : Str → Str) (feed : Str → Except Str Str) (sel : Nat)
    (s : StoreState) (ev : MessageEvent) : V1Result :=
  handleMessage api2 feed sel s ev

/-- The second main.go variant state: the per-user lastMessage map (a Go map
whose missing-key lookup yields the empty string). -/
structure V2State where
  lastMessage : Str → Str

/-- Second main.go variant event loop body.  The completion oracle returns
none on a transport or JSON-decoding failure and otherwise the decoded list
of choice contents.  The source calls PerplexityAPI before consulting the
lastMessage map; a duplicate text, an empty choices list, and any failure all
produce no outbound message.  Outbound texts go to a hardcoded channel, so
only the text list is recorded. -/
def handleV2 (api : Str → Option (List Str)) (st : V2State) (ev : MessageEvent) :
    List Str × V2State × List Str :=
  if ev.botID ≠ chars ("") then ([], st, [])
  else
    match api ev.text with
    | none => ([], st, [ev.text])
    | some choices =>
        if ev.text ≠ st.lastMessage ev.user then
          match choices with
          | [] => ([], st, [ev.text])
          | c :: _ =>
              ([c],
               { lastMessage := fun u => if u = ev.user then ev.text else st.lastMessage u },
               [ev.text])
        else ([], st, [ev.text])

/-- JSON values, the shape space of completion response bodies. -/
inductive Json where
  | null
  | bool (b : Bool)
  | num (n : Int)
  | str (s : Str)
  | arr (elems : List Json)
  | obj (fields : List (Str × Json))

/-- Field lookup in a decoded JSON object; Go json.Unmarshal into a map keeps
the last binding of a duplicated key. -/
def jlookup (fields : List (Str × Json)) (k : Str) : Option Json :=
  fields.foldl (fun acc kv => if kv.1 = k then some kv.2 else acc) none

/-- Outcome of the part_000 PerplexityAPI response extraction: the extracted
content, a returned error, or a runtime panic. -/
inductive PResult where
  | ok (content : Str)
  | err (msg : Str)
  | panicked
  deriving DecidableEq

/-- True when a PResult is a returned (typed) failure. -/
def PResult.isErr : PResult → Bool
  | PResult.err _ => true
  | _ => false

/-- First main.go variant PerplexityAPI response handling: the Unmarshal error
is ignored (a non-object body leaves the nil map), and any miss along
choices[0].message.content yields the substitute success string.  This
function cannot fail: its Go signature returns a plain string. -/
def extractV1 (j : Json) : Str :=
  let fields := match j with | Json.obj fs => fs | _ => []
  match jlookup fields (chars ("choices")) with
  | some (Json.arr (c0 :: _)) =>
      match c0 with
      | Json.obj c0f =>
          match jlookup c0f (chars ("message")) with
          | some (Json.obj mf) =>
              match jlookup mf (chars ("content")) with
              | some (Json.str s) => s
              | _ => chars ("No response from Perplexity API")
          | _ => chars ("No response from Perplexity API")
      | _ => chars ("No response from Perplexity API")
  | _ => chars ("No response from Perplexity API")

/-- part_000 PerplexityAPI response handling: a non-object body makes
json.Unmarshal fail (error returned; the message stands in for the Go decoder
text); a missing or non-array choices, an empty choices array, and a miss at
message or content return the invalid-response-format error; but choices[0]
is read with a single-value type assertion, so a non-object first choice
panics at runtime. -/
def extractP (j : Json) : PResult :=
  match j with
  | Json.obj fields =>
      match jlookup fields (chars ("choices")) with
      | some (Json.arr cs) =>
          match cs with
          | [] => PResult.err (chars ("invalid response format"))
          | c0 :: _ =>
              match c0 with
              | Json.obj c0f =>
                  match jlookup c0f (chars ("message")) with
                  | some (Json.obj mf) =>
                      match jlookup mf (chars ("content")) with
                      | some (Json.str s) => PResult.ok s
                      | _ => PResult.err (chars ("invalid response format"))
                  | _ => PResult.err (chars ("invalid response format"))
              | _ => PResult.panicked
      | _ => PResult.err (chars ("invalid response format"))
  | _ => PResult.err (chars ("json: cannot unmarshal into map"))

/-- Modelled from the spec: a response body has the expected
choices[0].message.content path when it is an object whose choices field is a
non-empty array whose first element is an object with an object message field
holding a string content field. -/
def hasContentPath (j : Json) : Bool :=
  match j with
  | Json.obj fields =>
      match jlookup fields (chars ("choices")) with
      | some (Json.arr (Json.obj c0f :: _)) =>
          match jlookup c0f (chars ("message")) with
          | some (Json.obj mf) =>
              match jlookup mf (chars ("content")) with
              | some (Json.str _) => true
              | _ => false
          | _ => false
      | _ => false
  | _ => false

/-- True when the body is an object whose choices field is a non-empty array
whose first element is not a JSON object (the shape on which the part_000
single-value type assertion panics). -/
def firstChoiceNonObj (j : Json) : Bool :=
  match j with
  | Json.obj fields =>
      match jlookup fields (chars ("choices")) with
      | some (Json.arr (c0 :: _)) =>
          match c0 with
          | Json.obj _ => false
          | _ => true
      | _ => false
  | _ => false

/-- C2 (amended): the part_000 dispatch discards every bot-flagged inbound
message silently: handleEventAPI executes no intent, sends zero outbound
messages and makes zero completion calls when BotID is non-empty. -/
theorem C2_bot_filter (api feed : Str → Except Str Str) (sel : Nat)
    (st : BotState) (ev : MessageEvent)
    (h : ev.botID ≠ chars ("")) :
    handleEventAPI api feed sel st ev
      = { outbound := [], state := st, apiCalls := [] } := by
  simp [handleEventAPI, h]

/-- Witness for C2_bot_filter at a concrete bot-flagged message. -/
theorem C2_bot_filter_witness :
    handleEventAPI (fun _ => Except.ok (chars ("R"))) (fun _ => Except.ok (chars ("F"))) 0
      { lastUserInput := chars (""), lastBotResponse := chars (""),
        store := { rows := [], nextId := 1 } }
      { channel := chars ("C"), user := chars ("U"), text := chars ("!getlink"),
        botID := chars ("B") }
      = { outbound := [],
          state := { lastUserInput := chars (""), lastBotResponse := chars (""),
                     store := { rows := [], nextId := 1 } },
          apiCalls := [] } :=
  C2_bot_filter _ _ _ _ _ (by decide)

/-- C2 counterexample: the first main.go dispatch loop applies no bot filter,
so a bot-flagged message (non-empty BotID) still produces an outbound reply,
contradicting the claim that every bot-flagged message is discarded
silently. -/
theorem C2_counterexample :
    (dispatchV1 (fun _ => chars ("R")) (fun _ => Except.ok (chars ("F"))) 0
      { rows := [], nextId := 1 }
      { channel := chars ("C"), user := chars ("U"), text := chars ("!getlink"),
        botID := chars ("B") }).outbound
      = [(chars ("C"), chars ("No hyperlinks available"))] ∧
    (chars ("B") : Str) ≠ chars ("") :=
  ⟨rfl, by decide⟩

/-- C10: in a fresh process (both dedup globals are the empty string), a
non-bot message whose text trims to the empty string takes the dedup
cache-hit branch: the bot sends the initial cached response, the empty
string, to the channel, makes no completion call, and the state is
unchanged. -/
theorem C10_empty_text_cache_hit (api feed : Str → Except Str Str) (sel : Nat)
    (store : StoreState) (ev : MessageEvent)
    (hbot : ev.botID = chars (""))
    (ht : goTrimSpace ev.text = chars ("")) :
    handleEventAPI api feed sel
      { lastUserInput := chars (""), lastBotResponse := chars (""), store := store } ev
      = { outbound := [(ev.channel, chars (""))],
          state := { lastUserInput := chars (""), lastBotResponse := chars (""),
                     store := store },
          apiCalls := [] } := by
  unfold handleEventAPI handleUserMessage
  rw [hbot, ht]
  rfl

/-- Witness for C10_empty_text_cache_hit at a concrete whitespace message. -/
theorem C10_empty_text_cache_hit_witness :
    handleEventAPI (fun _ => Except.ok (chars ("R"))) (fun _ => Except.ok (chars ("F"))) 0
      { lastUserInput := chars (""), lastBotResponse := chars (""),
        store := { rows := [], nextId := 1 } }
      { channel := chars ("C"), user := chars ("U"), text := chars ("   "),
        botID := chars ("") }
      = { outbound := [(chars ("C"), chars (""))],
          state := { lastUserInput := chars (""), lastBotResponse := chars (""),
                     store := { rows := [], nextId := 1 } },
          apiCalls := [] } :=
  C10_empty_text_cache_hit _ _ _ _ _ (by decide) (by decide)

/-- C5 (amended): in the second main.go variant, whose dedup state is the
per-user lastMessage map, handling a message from one sender leaves the map
entry of every other sender unchanged. -/
theorem C5_per_user_frame (api : Str → Option (List Str)) (st : V2State)
    (ev : MessageEvent) (b : Str) (h : b ≠ ev.user) :
    ((handleV2 api st ev).2.1).lastMessage b = st.lastMessage b := by
  unfold handleV2
  split
  · rfl
  · cases hapi : api ev.text with
    | none => simp [hapi]
    | some choices =>
        cases choices with
        | nil => simp [hapi]
        | cons c rest =>
            simp only [hapi]
            split <;> simp [h]

/-- Witness for C5_per_user_frame at concrete distinct senders. -/
theorem C5_per_user_frame_witness :
    ((handleV2 (fun _ => some [chars ("r")])
        { lastMessage := fun _ => chars ("") }
        { channel := chars ("C"), user := chars ("A"), text := chars ("hi"),
          botID := chars ("") }).2.1).lastMessage (chars ("B"))
      = chars ("") :=
  C5_per_user_frame _ _ _ _ (by decide)

/-- C5 counterexample: in part_000 the dedup state is one process-global
pair, so handling a distinct-text message from sender A overwrites the last
query text that sender B had established, contradicting the claim that
the deduplication entry for B is left unchanged. -/
theorem C5_counterexample :
    (handleUserMessage (fun _ => Except.ok (chars ("rx"))) (fun _ => Except.ok (chars ("F"))) 0
      { lastUserInput := chars ("y"), lastBotResponse := chars ("ry"),
        store := { rows := [], nextId := 1 } }
      { channel := chars ("C"), user := chars ("A"), text := chars ("x"),
        botID := chars ("") }).state.lastUserInput
      = chars ("x") ∧
    (chars ("x") : Str) ≠ chars ("y") :=
  ⟨rfl, by decide⟩

/-- C6 (amended): when the completion call fails on a fresh default-intent
query, part_000 replies with an error message and does not update the cached
response, but it does update the last-query entry: lastUserInput is assigned
the new query text before the call is made, so the DedupState is not left as
it was. -/
theorem C6_error_reply_updates_input (api feed : Str → Except Str Str) (sel : Nat)
    (st : BotState) (ev : MessageEvent) (t e : Str)
    (ht : goTrimSpace ev.text = t)
    (h1 : goStartsWith t (chars ("!save ")) = false)
    (h2 : t ≠ chars ("!list")) (h3 : t ≠ chars ("!random"))
    (h4 : t ≠ chars ("!summarize"))
    (hne : t ≠ st.lastUserInput)
    (he : api t = Except.error e) :
    handleUserMessage api feed sel st ev
      = { outbound := [(ev.channel, chars ("Error: ") ++ e)],
          state := { st with lastUserInput := t }, apiCalls := [t] } := by
  unfold handleUserMessage
  rw [ht]
  simp [h1, h2, h3, h4, hne, he]

/-- Witness for C6_error_reply_updates_input at a concrete failing call. -/
theorem C6_error_reply_updates_input_witness :
    handleUserMessage (fun _ => Except.error (chars ("boom"))) (fun _ => Except.ok (chars ("F"))) 0
      { lastUserInput := chars ("old"), lastBotResponse := chars ("oldr"),
        store := { rows := [], nextId := 1 } }
      { channel := chars ("C"), user := chars ("U"), text := chars ("hi"),
        botID := chars ("") }
      = { outbound := [(chars ("C"), chars ("Error: boom"))],
          state := { lastUserInput := chars ("hi"), lastBotResponse := chars ("oldr"),
                     store := { rows := [], nextId := 1 } },
          apiCalls := [chars ("hi")] } :=
  C6_error_reply_updates_input _ _ _ _ _ _ _
    (by decide) (by decide) (by decide) (by decide) (by decide) (by decide) rfl

/-- C6 counterexample: on a failing completion call part_000 sends the error
reply but the resulting lastUserInput equals the new query text, which
differs from its pre-call value, contradicting the claim that the DedupState
is left exactly as it was before the call. -/
theorem C6_counterexample :
    (handleUserMessage (fun _ => Except.error (chars ("boom"))) (fun _ => Except.ok (chars ("F"))) 0
      { lastUserInput := chars ("old"), lastBotResponse := chars ("oldr"),
        store := { rows := [], nextId := 1 } }
      { channel := chars ("C"), user := chars ("U"), text := chars ("hi"),
        botID := chars ("") }).state.lastUserInput
      = chars ("hi") ∧
    (chars ("hi") : Str) ≠ chars ("old") :=
  ⟨rfl, by decide⟩

/-- C7 (amended): in the first main.go variant, getRandomHyperlink on the
empty store returns the empty string with no error, and the !getlink intent
replies with the fixed no-links literal. -/
theorem C7_v1_empty_store (api2 : Str → Str) (feed : Str → Except Str Str)
    (sel n : Nat) (ev : MessageEvent)
    (ht : goTrimSpace ev.text = chars ("!getlink")) :
    getRandomHyperlinkV1 { rows := [], nextId := n } sel
      = (chars (""), { rows := [], nextId := n }) ∧
    handleMessage api2 feed sel { rows := [], nextId := n } ev
      = { outbound := [(ev.channel, chars ("No hyperlinks available"))],
          store := { rows := [], nextId := n }, apiCalls := [] } := by
  have hpick : pickRow { rows := [], nextId := n } sel = none := by
    simp [pickRow]
  have hv1 : getRandomHyperlinkV1 { rows := [], nextId := n } sel
      = (chars (""), { rows := [], nextId := n }) := by
    unfold getRandomHyperlinkV1
    rw [hpick]
  refine ⟨hv1, ?_⟩
  unfold handleMessage
  rw [ht, hv1]
  rfl

/-- Witness for C7_v1_empty_store at a concrete !getlink message. -/
theorem C7_v1_empty_store_witness :
    handleMessage (fun _ => chars ("R")) (fun _ => Except.ok (chars ("F"))) 0
      { rows := [], nextId := 1 }
      { channel := chars ("C"), user := chars ("U"), text := chars ("!getlink"),
        botID := chars ("") }
      = { outbound := [(chars ("C"), chars ("No hyperlinks available"))],
          store := { rows := [], nextId := 1 }, apiCalls := [] } :=
  (C7_v1_empty_store (fun _ => chars ("R")) (fun _ => Except.ok (chars ("F"))) 0 1
    { channel := chars ("C"), user := chars ("U"), text := chars ("!getlink"),
      botID := chars ("") } (by decide)).2

/-- C7 counterexample: the part_000 variant of getRandomHyperlink propagates
the no-rows failure of Scan as an error on the empty store, and the !random
intent then replies with an error message rather than the no-links literal,
contradicting the claim that an empty store is not an error. -/
theorem C7_counterexample :
    (getRandomHyperlink { rows := [], nextId := 1 } 0).1
      = Except.error (chars ("sql: no rows in result set")) ∧
    (handleUserMessage (fun _ => Except.ok (chars ("R"))) (fun _ => Except.ok (chars ("F"))) 0
      { lastUserInput := chars (""), lastBotResponse := chars (""),
        store := { rows := [], nextId := 1 } }
      { channel := chars ("C"), user := chars ("U"), text := chars ("!random"),
        botID := chars ("") }).outbound
      = [(chars ("C"),
          chars ("Error getting random hyperlink: sql: no rows in result set"))] :=
  ⟨rfl, rfl⟩

/-- C9 (amended): in the first main.go variant, any trimmed text with prefix
!savelink takes the save branch, and the URL argument handed to the append is
the raw remainder after the prefix: no surrounding-whitespace trim is applied
to it and no non-emptiness check is made, so the bare command !savelink
appends the empty string. -/
theorem C9_savelink_raw_argument (api2 : Str → Str) (feed : Str → Except Str Str)
    (sel : Nat) (s : StoreState) (ev : MessageEvent) (t : Str)
    (ht : goTrimSpace ev.text = t)
    (hp : goStartsWith t (chars ("!perplexity")) = false)
    (hs : goStartsWith t (chars ("!savelink")) = true) :
    handleMessage api2 feed sel s ev
      = { outbound := [(ev.channel, chars ("Hyperlink saved successfully"))],
          store := { rows := s.rows ++ [(s.nextId, goTrimPre t (chars ("!savelink")))],
                     nextId := s.nextId + 1 },
          apiCalls := [] } := by
  unfold handleMessage
  rw [ht]
  simp [hp, hs, saveHyperlink]

/-- Witness for C9_savelink_raw_argument at the bare !savelink message: the
append receives the empty string. -/
theorem C9_savelink_raw_argument_witness :
    handleMessage (fun _ => chars ("R")) (fun _ => Except.ok (chars ("F"))) 0
      { rows := [], nextId := 1 }
      { channel := chars ("C"), user := chars ("U"), text := chars ("!savelink"),
        botID := chars ("") }
      = { outbound := [(chars ("C"), chars ("Hyperlink saved successfully"))],
          store := { rows := [(1, chars (""))], nextId := 2 }, apiCalls := [] } := by
  have h := C9_savelink_raw_argument (fun _ => chars ("R")) (fun _ => Except.ok (chars ("F"))) 0
    { rows := [], nextId := 1 }
    { channel := chars ("C"), user := chars ("U"), text := chars ("!savelink"),
      botID := chars ("") }
    (chars ("!savelink")) (by decide) (by decide) (by decide)
  simpa using h

/-- C9 counterexample: the bare !savelink message leads to an append of the
empty string in the first main.go variant, contradicting the required
non-emptiness of the argument, and a part_000 save command with extra inner
whitespace appends the remainder verbatim, contradicting the required
whitespace trim of the URL argument. -/
theorem C9_counterexample :
    (handleMessage (fun _ => chars ("R")) (fun _ => Except.ok (chars ("F"))) 0
      { rows := [], nextId := 1 }
      { channel := chars ("C"), user := chars ("U"), text := chars ("!savelink"),
        botID := chars ("") }).store.rows
      = [(1, chars (""))] ∧
    (handleUserMessage (fun _ => Except.ok (chars ("R"))) (fun _ => Except.ok (chars ("F"))) 0
      { lastUserInput := chars (""), lastBotResponse := chars (""),
        store := { rows := [], nextId := 1 } }
      { channel := chars ("C"), user := chars ("U"), text := chars ("!save  x"),
        botID := chars ("") }).state.store.rows
      = [(1, chars (" x"))] :=
  ⟨rfl, rfl⟩

/-- C1 (amended): for a non-command trimmed text, the part_000 handler takes
the default-completion branch and sends exactly one outbound message to the
channel of the message; it calls the completion client with the full trimmed
text exactly when that text differs from the process-global last input, and
otherwise makes no call and replies with the cached prior response. -/
theorem C1_default_completion (api feed : Str → Except Str Str) (sel : Nat)
    (st : BotState) (ev : MessageEvent) (t : Str)
    (ht : goTrimSpace ev.text = t)
    (h1 : goStartsWith t (chars ("!save ")) = false)
    (h2 : t ≠ chars ("!list")) (h3 : t ≠ chars ("!random"))
    (h4 : t ≠ chars ("!summarize")) :
    (∃ m, (handleUserMessage api feed sel st ev).outbound = [(ev.channel, m)]) ∧
    (t ≠ st.lastUserInput → (handleUserMessage api feed sel st ev).apiCalls = [t]) ∧
    (t = st.lastUserInput →
      (handleUserMessage api feed sel st ev).apiCalls = [] ∧
      (handleUserMessage api feed sel st ev).outbound
        = [(ev.channel, st.lastBotResponse)]) := by
  by_cases hl : t = st.lastUserInput
  · subst hl
    have hstep : handleUserMessage api feed sel st ev
        = { outbound := [(ev.channel, st.lastBotResponse)], state := st,
            apiCalls := [] } := by
      unfold handleUserMessage
      rw [ht]
      simp [h1, h2, h3, h4]
    rw [hstep]
    exact ⟨⟨st.lastBotResponse, rfl⟩, fun hc => absurd rfl hc, fun _ => ⟨rfl, rfl⟩⟩
  · cases hapi : api t with
    | error e =>
        have hstep : handleUserMessage api feed sel st ev
            = { outbound := [(ev.channel, chars ("Error: ") ++ e)],
                state := { st with lastUserInput := t }, apiCalls := [t] } := by
          unfold handleUserMessage
          rw [ht]
          simp [h1, h2, h3, h4, hl, hapi]
        rw [hstep]
        exact ⟨⟨chars ("Error: ") ++ e, rfl⟩, fun _ => rfl, fun hc => absurd hc hl⟩
    | ok r =>
        have hstep : handleUserMessage api feed sel st ev
            = { outbound := [(ev.channel, r)],
                state := { st with lastUserInput := t, lastBotResponse := r },
                apiCalls := [t] } := by
          unfold handleUserMessage
          rw [ht]
          simp [h1, h2, h3, h4, hl, hapi]
        rw [hstep]
        exact ⟨⟨r, rfl⟩, fun _ => rfl, fun hc => absurd hc hl⟩

/-- Witness for C1_default_completion at a concrete free-text message. -/
theorem C1_default_completion_witness :
    (handleUserMessage (fun _ => Except.ok (chars ("R"))) (fun _ => Except.ok (chars ("F"))) 0
      { lastUserInput := chars (""), lastBotResponse := chars (""),
        store := { rows := [], nextId := 1 } }
      { channel := chars ("C"), user := chars ("U"), text := chars (" hello "),
        botID := chars ("") }).apiCalls
      = [chars ("hello")] :=
  (C1_default_completion (fun _ => Except.ok (chars ("R"))) (fun _ => Except.ok (chars ("F"))) 0
    { lastUserInput := chars (""), lastBotResponse := chars (""),
      store := { rows := [], nextId := 1 } }
    { channel := chars ("C"), user := chars ("U"), text := chars (" hello "),
      botID := chars ("") }
    (chars ("hello")) (by decide) (by decide) (by decide) (by decide)
    (by decide)).2.1 (by decide)

/-- C1 counterexample: the first main.go handleMessage sends no outbound
message at all for unmatched text, and the part_000 handler makes no
completion call when the unmatched text equals the global last input,
contradicting the claim that every non-command message yields one completion
call and one outbound message. -/
theorem C1_counterexample :
    (dispatchV1 (fun _ => chars ("R")) (fun _ => Except.ok (chars ("F"))) 0
      { rows := [], nextId := 1 }
      { channel := chars ("C"), user := chars ("U"), text := chars ("hello"),
        botID := chars ("") }).outbound
      = [] ∧
    (handleUserMessage (fun _ => Except.ok (chars ("R"))) (fun _ => Except.ok (chars ("F"))) 0
      { lastUserInput := chars ("hello"), lastBotResponse := chars ("OLD"),
        store := { rows := [], nextId := 1 } }
      { channel := chars ("C"), user := chars ("U"), text := chars ("hello"),
        botID := chars ("") }).apiCalls
      = [] :=
  ⟨rfl, rfl⟩

/-- C4 (amended): in part_000, when a fresh non-command query is handled and
then the identical text is handled again with no intervening message of any
kind, exactly one completion call is made in total and both outbound replies
carry the same response text. -/
theorem C4_dedup_single_call (api feed : Str → Except Str Str) (sel sel2 : Nat)
    (st : BotState) (ev : MessageEvent) (t r : Str)
    (ht : goTrimSpace ev.text = t)
    (h1 : goStartsWith t (chars ("!save ")) = false)
    (h2 : t ≠ chars ("!list")) (h3 : t ≠ chars ("!random"))
    (h4 : t ≠ chars ("!summarize"))
    (hne : t ≠ st.lastUserInput)
    (hok : api t = Except.ok r) :
    (handleUserMessage api feed sel st ev).apiCalls
      ++ (handleUserMessage api feed sel2
            (handleUserMessage api feed sel st ev).state ev).apiCalls
      = [t] ∧
    (handleUserMessage api feed sel st ev).outbound = [(ev.channel, r)] ∧
    (handleUserMessage api feed sel2
        (handleUserMessage api feed sel st ev).state ev).outbound
      = [(ev.channel, r)] := by
  have hstep1 : handleUserMessage api feed sel st ev
      = { outbound := [(ev.channel, r)],
          state := { st with lastUserInput := t, lastBotResponse := r },
          apiCalls := [t] } := by
    unfold handleUserMessage
    rw [ht]
    simp [h1, h2, h3, h4, hne, hok]
  have hstep2 : handleUserMessage api feed sel2
      { st with lastUserInput := t, lastBotResponse := r } ev
      = { outbound := [(ev.channel, r)],
          state := { st with lastUserInput := t, lastBotResponse := r },
          apiCalls := [] } := by
    unfold handleUserMessage
    rw [ht]
    simp [h1, h2, h3, h4]
  simp [hstep1, hstep2]

/-- Witness for C4_dedup_single_call at a concrete repeated query. -/
theorem C4_dedup_single_call_witness :
    (handleUserMessage (fun _ => Except.ok (chars ("R"))) (fun _ => Except.ok (chars ("F"))) 0
      { lastUserInput := chars (""), lastBotResponse := chars (""),
        store := { rows := [], nextId := 1 } }
      { channel := chars ("C"), user := chars ("U"), text := chars ("hi"),
        botID := chars ("") }).apiCalls
      ++ (handleUserMessage (fun _ => Except.ok (chars ("R"))) (fun _ => Except.ok (chars ("F"))) 0
            (handleUserMessage (fun _ => Except.ok (chars ("R"))) (fun _ => Except.ok (chars ("F"))) 0
              { lastUserInput := chars (""), lastBotResponse := chars (""),
                store := { rows := [], nextId := 1 } }
              { channel := chars ("C"), user := chars ("U"), text := chars ("hi"),
                botID := chars ("") }).state
            { channel := chars ("C"), user := chars ("U"), text := chars ("hi"),
              botID := chars ("") }).apiCalls
      = [chars ("hi")] :=
  (C4_dedup_single_call (fun _ => Except.ok (chars ("R"))) (fun _ => Except.ok (chars ("F"))) 0 0
    { lastUserInput := chars (""), lastBotResponse := chars (""),
      store := { rows := [], nextId := 1 } }
    { channel := chars ("C"), user := chars ("U"), text := chars ("hi"),
      botID := chars ("") }
    (chars ("hi")) (chars ("R")) (by decide) (by decide) (by decide) (by decide)
    (by decide) (by decide) rfl).1

/-- C4 counterexample: in the second main.go variant the completion call is
made before the per-user dedup check, so two identical messages in a row
from one sender make two completion calls and produce only one outbound
reply, contradicting the claimed one call with two identical replies. -/
theorem C4_counterexample :
    (handleV2 (fun _ => some [chars ("r")])
      { lastMessage := fun _ => chars ("") }
      { channel := chars ("C"), user := chars ("u"), text := chars ("hi"),
        botID := chars ("") }).1
      = [chars ("r")] ∧
    (handleV2 (fun _ => some [chars ("r")])
      { lastMessage := fun _ => chars ("") }
      { channel := chars ("C"), user := chars ("u"), text := chars ("hi"),
        botID := chars ("") }).2.2
      = [chars ("hi")] ∧
    (handleV2 (fun _ => some [chars ("r")])
      (handleV2 (fun _ => some [chars ("r")])
        { lastMessage := fun _ => chars ("") }
        { channel := chars ("C"), user := chars ("u"), text := chars ("hi"),
          botID := chars ("") }).2.1
      { channel := chars ("C"), user := chars ("u"), text := chars ("hi"),
        botID := chars ("") }).1
      = [] ∧
    (handleV2 (fun _ => some [chars ("r")])
      (handleV2 (fun _ => some [chars ("r")])
        { lastMessage := fun _ => chars ("") }
        { channel := chars ("C"), user := chars ("u"), text := chars ("hi"),
          botID := chars ("") }).2.1
      { channel := chars ("C"), user := chars ("u"), text := chars ("hi"),
        botID := chars ("") }).2.2
      = [chars ("hi")] :=
  ⟨rfl, rfl, rfl, rfl⟩

/-- Removing the rows holding a given id shortens a table with pairwise
distinct ids and a row with that id by exactly one row. -/
theorem filter_out_id_length {l : List (Nat × Str)} {i : Nat} {u : Str}
    (hm : (i, u) ∈ l) (hnd : (l.map Prod.fst).Nodup) :
    (l.filter (fun r => r.1 != i)).length + 1 = l.length := by
  induction l with
  | nil => cases hm
  | cons a l ih =>
      rw [List.map_cons, List.nodup_cons] at hnd
      rcases List.mem_cons.mp hm with h | h
      · have hai : a.1 = i := by rw [← h]
        have hfl : l.filter (fun r => r.1 != i) = l := by
          refine List.filter_eq_self.mpr ?_
          intro r hr
          simp only [bne_iff_ne, ne_eq, decide_eq_true_eq]
          intro hri
          have hmem : r.1 ∈ l.map Prod.fst := List.mem_map_of_mem Prod.fst hr
          rw [hri, ← hai] at hmem
          exact hnd.1 hmem
        simp [List.filter_cons, hai, hfl]
      · have hil : i ∈ l.map Prod.fst := by
          have := List.mem_map_of_mem Prod.fst h
          simpa using this
        have hai : a.1 ≠ i := by
          intro hc
          rw [← hc] at hil
          exact hnd.1 hil
        have hrec := ih h hnd.2
        have hpa : (fun r => r.1 != i) a = true := by simpa [bne_iff_ne] using hai
        rw [List.filter_cons, if_pos hpa, List.length_cons, List.length_cons]
        omega

/-- C3 (amended): the part_000 pick-and-remove deletes rows by the selected
store-assigned id: the surviving rows are exactly those with a different id,
so every other row is kept, including rows holding the same URL string, the
table shrinks by exactly one row when ids are pairwise distinct, and no later
pick without an intervening append can return the same identity again. -/
theorem C3_pick_removes_selected (s : StoreState) (sel : Nat) (i : Nat) (u : Str)
    (hnd : (s.rows.map Prod.fst).Nodup)
    (hp : pickRow s sel = some (i, u)) :
    (getRandomHyperlink s sel).2.rows = s.rows.filter (fun r => r.1 != i) ∧
    (∀ r ∈ s.rows, r.1 ≠ i → r ∈ (getRandomHyperlink s sel).2.rows) ∧
    (getRandomHyperlink s sel).2.rows.length + 1 = s.rows.length ∧
    (∀ sel2 p, pickRow (getRandomHyperlink s sel).2 sel2 = some p → p.1 ≠ i) := by
  have hrows : (getRandomHyperlink s sel).2.rows
      = s.rows.filter (fun r => r.1 != i) := by
    unfold getRandomHyperlink
    rw [hp]
  have hp2 : s.rows.get? (sel % s.rows.length) = some (i, u) := hp
  have hmem : (i, u) ∈ s.rows := List.get?_mem hp2
  refine ⟨hrows, ?_, ?_, ?_⟩
  · intro r hr hri
    rw [hrows]
    exact List.mem_filter.mpr ⟨hr, by simpa [bne_iff_ne] using hri⟩
  · rw [hrows]
    exact filter_out_id_length hmem hnd
  · intro sel2 p hpk
    have hp3 : (getRandomHyperlink s sel).2.rows.get?
        (sel2 % (getRandomHyperlink s sel).2.rows.length) = some p := hpk
    have hin : p ∈ (getRandomHyperlink s sel).2.rows := List.get?_mem hp3
    rw [hrows] at hin
    have := (List.mem_filter.mp hin).2
    simpa [bne_iff_ne] using this

/-- Witness for C3_pick_removes_selected on a concrete table with a
duplicated URL: the second row holding the same URL survives the pick. -/
theorem C3_pick_removes_selected_witness :
    (1, chars ("a"))
      ∈ (getRandomHyperlink
          { rows := [(0, chars ("a")), (1, chars ("a")), (2, chars ("b"))], nextId := 3 }
          0).2.rows := by
  have h := C3_pick_removes_selected
    { rows := [(0, chars ("a")), (1, chars ("a")), (2, chars ("b"))], nextId := 3 }
    0 0 (chars ("a")) (by decide) rfl
  exact h.2.1 (1, chars ("a")) (by decide) (by decide)

/-- C3 counterexample: the first main.go variant deletes by URL string, so
picking from a table holding two rows with the same URL removes both rows,
contradicting the claim that the other row holding the same URL string is
left in place. -/
theorem C3_counterexample :
    (getRandomHyperlinkV1 { rows := [(1, chars ("u")), (2, chars ("u"))], nextId := 3 } 0).1
      = chars ("u") ∧
    (getRandomHyperlinkV1 { rows := [(1, chars ("u")), (2, chars ("u"))], nextId := 3 } 0).2.rows
      = [] :=
  ⟨rfl, rfl⟩

/-- C8 (amended): for every response body missing the
choices[0].message.content path, the part_000 client returns a typed failure
when the first choice, if any, is a JSON object, but it panics when the
choices field is a non-empty array whose first element is not an object; the
first main.go client instead always succeeds, returning the substitute
string for every such body. -/
theorem C8_missing_path (j : Json) (h : hasContentPath j = false) :
    (firstChoiceNonObj j = false → (extractP j).isErr = true) ∧
    (firstChoiceNonObj j = true → extractP j = PResult.panicked) ∧
    extractV1 j = chars ("No response from Perplexity API") := by
  cases j with
  | null => exact ⟨fun _ => rfl, fun hc => by simp [firstChoiceNonObj] at hc, rfl⟩
  | bool b => exact ⟨fun _ => rfl, fun hc => by simp [firstChoiceNonObj] at hc, rfl⟩
  | num n => exact ⟨fun _ => rfl, fun hc => by simp [firstChoiceNonObj] at hc, rfl⟩
  | str s => exact ⟨fun _ => rfl, fun hc => by simp [firstChoiceNonObj] at hc, rfl⟩
  | arr xs => exact ⟨fun _ => rfl, fun hc => by simp [firstChoiceNonObj] at hc, rfl⟩
  | obj fields =>
      cases hch : jlookup fields (chars ("choices")) with
      | none =>
          simp [extractP, extractV1, hasContentPath, firstChoiceNonObj, PResult.isErr, hch]
      | some v =>
          cases v with
          | null =>
              simp [extractP, extractV1, firstChoiceNonObj, PResult.isErr, hch]
          | bool b =>
              simp [extractP, extractV1, firstChoiceNonObj, PResult.isErr, hch]
          | num n =>
              simp [extractP, extractV1, firstChoiceNonObj, PResult.isErr, hch]
          | str s =>
              simp [extractP, extractV1, firstChoiceNonObj, PResult.isErr, hch]
          | obj o2 =>
              simp [extractP, extractV1, firstChoiceNonObj, PResult.isErr, hch]
          | arr cs =>
              cases cs with
              | nil =>
                  simp [extractP, extractV1, firstChoiceNonObj, PResult.isErr, hch]
              | cons c0 rest =>
                  cases c0 with
                  | null =>
                      simp [extractP, extractV1, firstChoiceNonObj, PResult.isErr, hch]
                  | bool b =>
                      simp [extractP, extractV1, firstChoiceNonObj, PResult.isErr, hch]
                  | num n =>
                      simp [extractP, extractV1, firstChoiceNonObj, PResult.isErr, hch]
                  | str s =>
                      simp [extractP, extractV1, firstChoiceNonObj, PResult.isErr, hch]
                  | arr a2 =>
                      simp [extractP, extractV1, firstChoiceNonObj, PResult.isErr, hch]
                  | obj c0f =>
                      cases hm : jlookup c0f (chars ("message")) with
                      | none =>
                          simp [extractP, extractV1, firstChoiceNonObj, PResult.isErr, hch, hm]
                      | some mv =>
                          cases mv with
                          | null =>
                              simp [extractP, extractV1, firstChoiceNonObj, PResult.isErr, hch, hm]
                          | bool b =>
                              simp [extractP, extractV1, firstChoiceNonObj, PResult.isErr, hch, hm]
                          | num n =>
                              simp [extractP, extractV1, firstChoiceNonObj, PResult.isErr, hch, hm]
                          | str s =>
                              simp [extractP, extractV1, firstChoiceNonObj, PResult.isErr, hch, hm]
                          | arr a2 =>
                              simp [extractP, extractV1, firstChoiceNonObj, PResult.isErr, hch, hm]
                          | obj mf =>
                              cases hc : jlookup mf (chars ("content")) with
                              | none =>
                                  simp [extractP, extractV1, firstChoiceNonObj, PResult.isErr,
                                    hch, hm, hc]
                              | some cv =>
                                  cases cv with
                                  | str s2 =>
                                      exfalso
                                      simp [hasContentPath, hch, hm, hc] at h
                                  | null =>
                                      simp [extractP, extractV1, firstChoiceNonObj, PResult.isErr,
                                        hch, hm, hc]
                                  | bool b =>
                                      simp [extractP, extractV1, firstChoiceNonObj, PResult.isErr,
                                        hch, hm, hc]
                                  | num n =>
                                      simp [extractP, extractV1, firstChoiceNonObj, PResult.isErr,
                                        hch, hm, hc]
                                  | arr a2 =>
                                      simp [extractP, extractV1, firstChoiceNonObj, PResult.isErr,
                                        hch, hm, hc]
                                  | obj o2 =>
                                      simp [extractP, extractV1, firstChoiceNonObj, PResult.isErr,
                                        hch, hm, hc]

/-- Witness for C8_missing_path at the concrete empty-object body. -/
theorem C8_missing_path_witness :
    extractV1 (Json.obj []) = chars ("No response from Perplexity API") :=
  (C8_missing_path (Json.obj []) (by decide)).2.2

/-- C8 counterexample: the first main.go client turns a body without the
expected path into the substitute success string rather than a typed
failure, and the part_000 client panics rather than failing when the first
choice is not an object. -/
theorem C8_counterexample :
    extractV1 (Json.obj []) = chars ("No response from Perplexity API") ∧
    hasContentPath (Json.obj []) = false ∧
    extractP (Json.obj [(chars ("choices"), Json.arr [Json.str (chars ("x"))])])
      = PResult.panicked ∧
    hasContentPath (Json.obj [(chars ("choices"), Json.arr [Json.str (chars ("x"))])])
      = false :=
  ⟨rfl, rfl, rfl, rfl⟩

end PplxBot
